import Mathlib

/-!
Verification of the tensorforce repository excerpt: the agent registry
(`tensorforce/util/agent_util.py`) and the hyperparameter-tuning worker
(`tune.py`).  Python values are embedded shallowly: numbers as exact
rationals and integers, dicts as Lean structures, exceptions as `Except`
or `Option`.
-/

namespace AgentUtil

/-- The `TensorForceValueError` exception, carrying its message. -/
inductive TFError where
  | valueError (msg : String) : TFError
deriving DecidableEq, Repr

/-- The two agent classes registered in the `agents` dict. -/
inductive AgentClass where
  | RandomAgent : AgentClass
  | DQNAgent : AgentClass
deriving DecidableEq, Repr

/-- The module-level `agents` dict of `agent_util.py`: a fixed mapping from
type-name strings to agent classes; `agents.get` yields `none` when absent. -/
def agents (agent_type : String) : Option AgentClass :=
  if agent_type = "RandomAgent" then some AgentClass.RandomAgent
  else if agent_type = "DQNAgent" then some AgentClass.DQNAgent
  else none

/-- An agent instance: the class that was constructed together with the two
configuration mappings its constructor received.  The configuration types are
abstract (`α`, `β`) since the dispatch layer treats them as opaque. -/
structure AgentInstance (α β : Type) where
  cls : AgentClass
  agent_config : α
  network_config : β
deriving DecidableEq, Repr

/-- `create_agent` of `agent_util.py`: look up `agent_type` in `agents`; raise
`TensorForceValueError("No such agent: ...")` when absent, otherwise construct
the agent from the two supplied configurations. -/
def create_agent {α β : Type} (agent_type : String) (agent_config : α)
    (network_config : β) : Except TFError (AgentInstance α β) :=
  match agents agent_type with
  | none => Except.error (TFError.valueError ("No such agent: " ++ agent_type))
  | some c => Except.ok ⟨c, agent_config, network_config⟩

/-- Modelled from the spec: the `Config` wrapper class of `tensorforce.config`
(its source is not under src/); it wraps a raw configuration mapping as a
configuration object. -/
structure Config (α : Type) where
  raw : α
deriving DecidableEq, Repr

/-- `get_default_config` of `agent_util.py`: same lookup as `create_agent`; on
success return the pair `(Config(cls.default_config),
Config(cls.value_function_ref.default_config))`.  The class attributes
`default_config` and `value_function_ref` live in the agent classes
(`tensorforce.rl_agents`, not under src/), so they are passed in abstractly:
`default_config` maps a class to its declared default configuration,
`value_function_ref` maps it to its referenced value-function class, and
`vf_default_config` maps a value-function class to its declared default
configuration. -/
def get_default_config {α γ VF : Type} (default_config : AgentClass → α)
    (value_function_ref : AgentClass → VF) (vf_default_config : VF → γ)
    (agent_type : String) : Except TFError (Config α × Config γ) :=
  match agents agent_type with
  | none => Except.error (TFError.valueError ("No such agent: " ++ agent_type))
  | some c =>
      Except.ok (⟨default_config c⟩, ⟨vf_default_config (value_function_ref c)⟩)

end AgentUtil

namespace AgentUtil

/-- Python `int()` on a rational: truncation toward zero. -/
def pyInt (q : ℚ) : ℤ := if 0 ≤ q then ⌊q⌋ else -⌊-q⌋

/-- Python 3 `round()` on a rational: round half to even. -/
def pyRound (q : ℚ) : ℤ :=
  let f := ⌊q⌋
  if q - f < 1/2 then f
  else if 1/2 < q - f then f + 1
  else if Even f then f else f + 1

end AgentUtil

namespace Tune

open AgentUtil (pyInt pyRound)

/-- The hyperparameter sample passed to `TensorforceWorker.compute` as
`config`; fields follow `get_configspace` (integer hyperparameters as `ℤ`,
float ones as exact `ℚ`, categorical ones as `String`). -/
structure TuneConfig where
  frequency : ℚ
  batch_size : ℤ
  learning_rate : ℚ
  horizon : ℤ
  discount : ℚ
  ratio_based : String
  baseline : String
  baseline_weight : ℚ
  baseline_learning_rate : ℚ
  estimate_advantage : String
  entropy_regularization : ℚ
deriving DecidableEq, Repr

/-- The network dict `dict(type=..., size=..., depth=..., rnn=...)`. -/
structure NetworkDict where
  type : String
  size : ℤ
  depth : ℤ
  rnn : Bool
deriving DecidableEq, Repr

/-- The constant network template `dict(type='auto', size=64, depth=2,
rnn=False)` used for the policy and the separate baseline policy. -/
def autoNetwork : NetworkDict := ⟨"auto", 64, 2, false⟩

/-- The policy dict `dict(network=...)`. -/
structure PolicyDict where
  network : NetworkDict
deriving DecidableEq, Repr

/-- The update dict `dict(unit=..., batch_size=..., frequency=...)`. -/
structure UpdateDict where
  unit : String
  batch_size : ℤ
  frequency : ℤ
deriving DecidableEq, Repr

/-- An optimizer dict `dict(type='adam', learning_rate=...)`. -/
structure OptimizerDict where
  type : String
  learning_rate : ℚ
deriving DecidableEq, Repr

/-- The objective dict `dict(type='policy_gradient', ratio_based=...,
clipping_value=...)`. -/
structure ObjectiveDict where
  type : String
  ratio_based : Bool
  clipping_value : ℚ
deriving DecidableEq, Repr

/-- The Python value of `predict_horizon_values`: either a boolean
(`False` in the `no` branch) or a string (`'early'` otherwise). -/
inductive HorizonValuesFlag where
  | boolFlag (b : Bool) : HorizonValuesFlag
  | strFlag (s : String) : HorizonValuesFlag
deriving DecidableEq, Repr

/-- The Python value of `baseline_optimizer`: `None`, a bare float weight
(the `same` branch), or an adam optimizer dict (the `yes` branch). -/
inductive BaselineOptimizerVal where
  | noneVal : BaselineOptimizerVal
  | weightVal (w : ℚ) : BaselineOptimizerVal
  | optDict (o : OptimizerDict) : BaselineOptimizerVal
deriving DecidableEq, Repr

/-- The baseline objective dict `dict(type='value', value='state')`. -/
structure BaselineObjectiveDict where
  type : String
  value : String
deriving DecidableEq, Repr

/-- The `reward_estimation` sub-dict of the assembled agent configuration. -/
structure RewardEstimationDict where
  horizon : ℤ
  discount : ℚ
  predict_horizon_values : HorizonValuesFlag
  estimate_advantage : Bool
  predict_action_values : Bool
deriving DecidableEq, Repr

/-- The full agent configuration dict assembled by `compute`. -/
structure AgentDict where
  policy : PolicyDict
  memory : String
  update : UpdateDict
  optimizer : OptimizerDict
  objective : ObjectiveDict
  reward_estimation : RewardEstimationDict
  baseline_policy : Option PolicyDict
  baseline_optimizer : BaselineOptimizerVal
  baseline_objective : Option BaselineObjectiveDict
  entropy_regularization : ℚ
deriving DecidableEq, Repr

/-- The six locals set by the three-way `baseline` branch of `compute`. -/
structure BaselineBundle where
  predict_horizon_values : HorizonValuesFlag
  estimate_advantage : Bool
  predict_action_values : Bool
  baseline_policy : Option PolicyDict
  baseline_optimizer : BaselineOptimizerVal
  baseline_objective : Option BaselineObjectiveDict
deriving DecidableEq, Repr

/-- The `if config['baseline'] == ...` chain of `compute`; the trailing
`assert False` on any other value is modelled as `none`. -/
def baselineBranch (config : TuneConfig) : Option BaselineBundle :=
  if config.baseline = "no" then
    some ⟨HorizonValuesFlag.boolFlag false, false, false, none,
      BaselineOptimizerVal.noneVal, none⟩
  else if config.baseline = "same" then
    some ⟨HorizonValuesFlag.strFlag "early",
      decide (config.estimate_advantage = "yes"), false, none,
      BaselineOptimizerVal.weightVal config.baseline_weight,
      some ⟨"value", "state"⟩⟩
  else if config.baseline = "yes" then
    some ⟨HorizonValuesFlag.strFlag "early",
      decide (config.estimate_advantage = "yes"), false, some ⟨autoNetwork⟩,
      BaselineOptimizerVal.optDict ⟨"adam", config.baseline_learning_rate⟩,
      some ⟨"value", "state"⟩⟩
  else none

/-- `frequency = max(1, int(config['frequency'] * config['batch_size']))`. -/
def computedFrequency (config : TuneConfig) : ℤ :=
  max 1 (pyInt (config.frequency * (config.batch_size : ℚ)))

/-- The entropy-regularization clamp: values strictly below `3e-5` become
`0.0`, others pass through unchanged. -/
def clampedEntropy (config : TuneConfig) : ℚ :=
  if config.entropy_regularization < 3/100000 then 0
  else config.entropy_regularization

/-- The agent-configuration assembly of `compute` (lines 39-91 of
`tune.py`): derived update frequency, fixed policy/optimizer/objective
templates, the baseline branch, and the entropy clamp; `none` models the
`assert False` on an unhandled baseline value, which fires before the
agent dict is assembled. -/
def assembleAgent (config : TuneConfig) : Option AgentDict :=
  match baselineBranch config with
  | none => none
  | some bb =>
      some
        { policy := ⟨autoNetwork⟩
          memory := "recent"
          update := ⟨"episodes", config.batch_size, computedFrequency config⟩
          optimizer := ⟨"adam", config.learning_rate⟩
          objective :=
            ⟨"policy_gradient", decide (config.ratio_based = "yes"), 1/5⟩
          reward_estimation :=
            ⟨config.horizon, config.discount, bb.predict_horizon_values,
              bb.estimate_advantage, bb.predict_action_values⟩
          baseline_policy := bb.baseline_policy
          baseline_optimizer := bb.baseline_optimizer
          baseline_objective := bb.baseline_objective
          entropy_regularization := clampedEntropy config }

/-- `np.mean` of a list of rationals (0 on the empty list, where numpy
yields nan). -/
def listMean (xs : List ℚ) : ℚ := xs.sum / xs.length

/-- Python `xs[-20:]`: the last 20 elements (all of them when fewer). -/
def lastTwenty (xs : List ℚ) : List ℚ := xs.drop (xs.length - 20)

/-- The per-repetition recorded final reward:
`float(np.mean(runner.episode_rewards[-20:], axis=0))`. -/
def recordedFinalReward (xs : List ℚ) : ℚ := listMean (lastTwenty xs)

/-- The list comprehension `average_rewards`: the windowed means
`np.mean(rewards[n: n + 20])` for `n in range(len(rewards) - 20)`. -/
def averageRewards (xs : List ℚ) : List ℚ :=
  (List.range (xs.length - 20)).map fun n => listMean ((xs.drop n).take 20)

/-- The per-repetition recorded max reward `np.amax(average_rewards)`;
`none` models the `ValueError` numpy raises on an empty list. -/
def recordedMaxReward (xs : List ℚ) : Option ℚ := (averageRewards xs).max?

/-- One Runner lifecycle of the repetition loop: the arguments passed to
`Runner(...)` and to `runner.run(...)`, and whether `runner.close()` ran. -/
structure RunnerCall (E : Type) where
  agent : AgentDict
  environment : E
  max_episode_timesteps : Option ℤ
  num_episodes : ℤ
  use_tqdm : Bool
  closed : Bool
deriving DecidableEq, Repr

/-- The observable outcome of `compute`: the runner lifecycle trace, the
three collected per-repetition lists, and the returned loss. -/
structure ComputeResult (E : Type) where
  calls : List (RunnerCall E)
  final_reward : List ℚ
  max_reward : List ℚ
  rewards : List (List ℚ)
  loss : ℚ
deriving DecidableEq, Repr

/-- `TensorforceWorker.compute` (lines 38-121 of `tune.py`): assemble the
agent configuration, then for `round(budget)` repetitions construct a fresh
Runner on the agent and the worker's environment, run 200 episodes with
`use_tqdm=False`, close it, and record the final reward (mean of the last 20
episode rewards), the max windowed reward, and the raw reward sequence;
finally return `loss = -mean(final_reward) - mean(max_reward)`.  The runner
itself is external code: `episodeRewards n` stands for
`runner.episode_rewards` of the `n`-th repetition.  `none` models an uncaught
exception: the `assert False` of the baseline branch, or numpy's error when a
reward sequence yields no window. -/
def compute (E : Type) (config : TuneConfig) (budget : ℚ) (environment : E)
    (max_episode_timesteps : Option ℤ) (episodeRewards : ℕ → List ℚ) :
    Option (ComputeResult E) :=
  (assembleAgent config).bind fun agent =>
    let idx := List.range (pyRound budget).toNat
    (idx.mapM fun n => recordedMaxReward (episodeRewards n)).map
      fun max_reward =>
        let final_reward :=
          idx.map fun n => recordedFinalReward (episodeRewards n)
        { calls := idx.map fun _ =>
            ⟨agent, environment, max_episode_timesteps, 200, false, true⟩
          final_reward := final_reward
          max_reward := max_reward
          rewards := idx.map episodeRewards
          loss := -listMean final_reward - listMean max_reward }

/-- Follows the spec's words, for comparison with `recordedMaxReward`: the
maximum of the windowed mean over ALL 20-episode sliding windows, whose start
indices are 0 .. length-20 (so `length - 19` windows in total). -/
def allWindowsMax (xs : List ℚ) : Option ℚ :=
  ((List.range (xs.length - 19)).map
    fun n => listMean ((xs.drop n).take 20)).max?

/-- A 21-episode reward sequence: twenty zero rewards, then one reward 1.
Its two full sliding windows have means 0 and 1/20, but the code's
`range(len(rewards) - 20)` only visits the first. -/
def cexSeq : List ℚ := List.replicate 20 0 ++ [1]

/-- A concrete hyperparameter sample used to instantiate theorems. -/
def exCfg : TuneConfig :=
  { frequency := 1/2
    batch_size := 10
    learning_rate := 1/1000
    horizon := 10
    discount := 99/100
    ratio_based := "no"
    baseline := "no"
    baseline_weight := 1
    baseline_learning_rate := 1/1000
    estimate_advantage := "no"
    entropy_regularization := 1/10 }

/-- The agent configuration `compute` assembles from `exCfg`. -/
def exAgent : AgentDict :=
  { policy := ⟨autoNetwork⟩
    memory := "recent"
    update := ⟨"episodes", 10, 5⟩
    optimizer := ⟨"adam", 1/1000⟩
    objective := ⟨"policy_gradient", false, 1/5⟩
    reward_estimation := ⟨10, 99/100, HorizonValuesFlag.boolFlag false,
      false, false⟩
    baseline_policy := none
    baseline_optimizer := BaselineOptimizerVal.noneVal
    baseline_objective := none
    entropy_regularization := 1/10 }

/-- A stub reward oracle: every repetition yields 21 zero-reward episodes. -/
def exRewards : ℕ → List ℚ := fun _ => List.replicate 21 0

/-- The result of `compute` on `exCfg` with budget 1 and `exRewards`. -/
def exResult : ComputeResult Unit :=
  { calls := [⟨exAgent, (), none, 200, false, true⟩]
    final_reward := [0]
    max_reward := [0]
    rewards := [List.replicate 21 0]
    loss := 0 }

end Tune

namespace AgentUtil

/-- C1: `create_agent` raises the `TensorForceValueError` unknown-identifier
error exactly when the type name is neither "RandomAgent" nor "DQNAgent", and
for each registered name it returns an instance of the corresponding class
built from the two supplied configurations. -/
theorem create_agent_registry_spec (α β : Type) (t : String) (ac : α) (nc : β) :
    ((∃ e, create_agent t ac nc = Except.error e) ↔
      ¬(t = "RandomAgent" ∨ t = "DQNAgent")) ∧
    create_agent "RandomAgent" ac nc =
      Except.ok ⟨AgentClass.RandomAgent, ac, nc⟩ ∧
    create_agent "DQNAgent" ac nc = Except.ok ⟨AgentClass.DQNAgent, ac, nc⟩ := by
  refine ⟨?_, rfl, rfl⟩
  by_cases h1 : t = "RandomAgent" <;> by_cases h2 : t = "DQNAgent" <;>
    simp [create_agent, agents, h1, h2]

/-- C7: for every registered agent type name, `get_default_config` returns the
pair of the registered class's default configuration and the default
configuration of the class's referenced value-function, each wrapped as a
`Config` object; for any unregistered name it raises exactly the same
unknown-identifier error as `create_agent`. -/
theorem get_default_config_spec (α β γ VF : Type) (dc : AgentClass → α)
    (vfref : AgentClass → VF) (vfdc : VF → γ) (t : String) (ac : α) (nc : β) :
    (∀ c, agents t = some c →
      get_default_config dc vfref vfdc t =
        Except.ok (⟨dc c⟩, ⟨vfdc (vfref c)⟩)) ∧
    (agents t = none →
      ∃ e, get_default_config dc vfref vfdc t = Except.error e ∧
        create_agent t ac nc = Except.error e) := by
  constructor
  · intro c hc
    simp [get_default_config, hc]
  · intro hn
    exact ⟨TFError.valueError ("No such agent: " ++ t),
      by simp [get_default_config, hn], by simp [create_agent, hn]⟩

/-- Witness for C7 at concrete inputs: the lookup hypotheses hold at
"DQNAgent" (registered) and "PPOAgent" (unregistered). -/
theorem get_default_config_spec_witness :
    get_default_config (fun _ => (0 : Nat)) (fun c => c) (fun _ => (1 : Nat))
        "DQNAgent" = Except.ok (⟨0⟩, ⟨1⟩) ∧
    ∃ e, get_default_config (fun _ => (0 : Nat)) (fun c => c)
        (fun _ => (1 : Nat)) "PPOAgent" = Except.error e ∧
      create_agent "PPOAgent" (0 : Nat) (0 : Nat) = Except.error e :=
  ⟨(get_default_config_spec Nat Nat Nat AgentClass (fun _ => 0) (fun c => c)
      (fun _ => 1) "DQNAgent" 0 0).1 AgentClass.DQNAgent rfl,
   (get_default_config_spec Nat Nat Nat AgentClass (fun _ => 0) (fun c => c)
      (fun _ => 1) "PPOAgent" 0 0).2 rfl⟩

end AgentUtil

namespace Tune

open AgentUtil (pyInt pyRound)

/-- Helper: under `max 1 _`, Python truncation agrees with the floor. -/
theorem max_one_pyInt_eq_floor (q : ℚ) : max 1 (pyInt q) = max 1 ⌊q⌋ := by
  unfold pyInt
  by_cases h : 0 ≤ q
  · simp [h]
  · have hq : q < 0 := lt_of_not_le h
    have h1 : ⌊q⌋ ≤ 0 := Int.floor_nonpos (le_of_lt hq)
    have h2 : 0 ≤ ⌊-q⌋ := Int.floor_nonneg.2 (by linarith)
    simp only [h, if_false]
    omega

/-- C4: the baseline branch of `compute` handles exactly the three values
"no", "same" and "yes" of `config['baseline']`; any other value hits the
`assert False`, which fires before the agent configuration is assembled. -/
theorem baseline_branch_exhaustive (config : TuneConfig) :
    (baselineBranch config = none ↔
      ¬(config.baseline = "no" ∨ config.baseline = "same" ∨
        config.baseline = "yes")) ∧
    (assembleAgent config = none ↔ baselineBranch config = none) := by
  constructor
  · by_cases h1 : config.baseline = "no" <;>
      by_cases h2 : config.baseline = "same" <;>
      by_cases h3 : config.baseline = "yes" <;>
      simp [baselineBranch, h1, h2, h3]
  · cases hb : baselineBranch config <;> simp [assembleAgent, hb]

/-- C5: the update frequency computed by `compute` is
`max(1, floor(config['frequency'] * config['batch_size']))` (the Python
`int()` truncation agrees with the floor under the outer `max(1, ...)`),
it is the frequency stored in the assembled agent configuration, and at
`frequency=1/2, batch_size=10` it is 5 while at `frequency=1/100,
batch_size=1` it is floored up to 1. -/
theorem computed_frequency_spec (config : TuneConfig) (a : AgentDict) :
    computedFrequency config =
      max 1 ⌊config.frequency * (config.batch_size : ℚ)⌋ ∧
    (assembleAgent config = some a →
      a.update.frequency = computedFrequency config) ∧
    (config.frequency = 1/2 → config.batch_size = 10 →
      computedFrequency config = 5) ∧
    (config.frequency = 1/100 → config.batch_size = 1 →
      computedFrequency config = 1) := by
  refine ⟨max_one_pyInt_eq_floor _, ?_, ?_, ?_⟩
  · intro h
    cases hb : baselineBranch config with
    | none => rw [assembleAgent, hb] at h; exact absurd h (by simp)
    | some bb =>
      rw [assembleAgent, hb] at h
      simp only [Option.some.injEq] at h
      rw [← h]
  · intro h1 h2
    simp only [computedFrequency, h1, h2]
    with_unfolding_all decide
  · intro h1 h2
    simp only [computedFrequency, h1, h2]
    with_unfolding_all decide

/-- Witness for C5 at `exCfg` (frequency 1/2, batch size 10): the derived
frequency is 5, matches the floor formula, and is stored in `exAgent`. -/
theorem computed_frequency_spec_witness :
    computedFrequency exCfg =
      max 1 ⌊exCfg.frequency * (exCfg.batch_size : ℚ)⌋ ∧
    exAgent.update.frequency = computedFrequency exCfg ∧
    computedFrequency exCfg = 5 :=
  ⟨(computed_frequency_spec exCfg exAgent).1,
   (computed_frequency_spec exCfg exAgent).2.1 (by with_unfolding_all rfl),
   (computed_frequency_spec exCfg exAgent).2.2.1 rfl rfl⟩

/-- C6: the entropy-regularization value placed in the assembled agent
configuration is 0 when the sampled value is strictly below `3e-5` and is the
sampled value unchanged otherwise; in particular `2e-5` is clamped to 0 and
`5e-5` passes through. -/
theorem entropy_clamp_spec (config : TuneConfig) (a : AgentDict) :
    (assembleAgent config = some a →
      config.entropy_regularization < 3/100000 →
      a.entropy_regularization = 0) ∧
    (assembleAgent config = some a →
      3/100000 ≤ config.entropy_regularization →
      a.entropy_regularization = config.entropy_regularization) ∧
    (config.entropy_regularization = 2/100000 → clampedEntropy config = 0) ∧
    (config.entropy_regularization = 5/100000 →
      clampedEntropy config = 5/100000) := by
  have key : ∀ h : assembleAgent config = some a,
      a.entropy_regularization = clampedEntropy config := by
    intro h
    cases hb : baselineBranch config with
    | none => rw [assembleAgent, hb] at h; exact absurd h (by simp)
    | some bb =>
      rw [assembleAgent, hb] at h
      simp only [Option.some.injEq] at h
      rw [← h]
  refine ⟨?_, ?_, ?_, ?_⟩
  · intro h hlt
    rw [key h, clampedEntropy, if_pos hlt]
  · intro h hge
    rw [key h, clampedEntropy, if_neg (not_lt.2 hge)]
  · intro h
    rw [clampedEntropy, h, if_pos (by norm_num)]
  · intro h
    rw [clampedEntropy, h, if_neg (by norm_num)]

/-- Witness for C6: `exCfg`'s entropy 1/10 passes through into `exAgent`,
and the two concrete clamp facts hold at modified samples. -/
theorem entropy_clamp_spec_witness :
    exAgent.entropy_regularization = exCfg.entropy_regularization ∧
    clampedEntropy { exCfg with entropy_regularization := 2/100000 } = 0 ∧
    clampedEntropy { exCfg with entropy_regularization := 5/100000 } =
      5/100000 :=
  ⟨(entropy_clamp_spec exCfg exAgent).2.1 (by with_unfolding_all rfl)
      (by norm_num [exCfg]),
   (entropy_clamp_spec { exCfg with entropy_regularization := 2/100000 }
      exAgent).2.2.1 rfl,
   (entropy_clamp_spec { exCfg with entropy_regularization := 5/100000 }
      exAgent).2.2.2 rfl⟩

/-- C9: with `baseline = 'no'`, the assembled agent configuration does not
depend on the `estimate_advantage` field: two samples differing only there
assemble to equal agent dicts. -/
theorem estimate_advantage_noninterference (c : TuneConfig) (v w : String)
    (h : c.baseline = "no") :
    assembleAgent { c with estimate_advantage := v } =
      assembleAgent { c with estimate_advantage := w } := by
  simp [assembleAgent, baselineBranch, h, computedFrequency, clampedEntropy]

/-- Witness for C9: `exCfg` has `baseline = 'no'`, and flipping
`estimate_advantage` leaves the assembled agent unchanged. -/
theorem estimate_advantage_noninterference_witness :
    assembleAgent { exCfg with estimate_advantage := "no" } =
      assembleAgent { exCfg with estimate_advantage := "yes" } :=
  estimate_advantage_noninterference exCfg "no" "yes" rfl

/-- C10: every successfully assembled agent configuration has
`reward_estimation.predict_action_values = False`, whichever baseline mode
was selected. -/
theorem predict_action_values_invariant (c : TuneConfig) (a : AgentDict)
    (h : assembleAgent c = some a) :
    a.reward_estimation.predict_action_values = false := by
  cases hb : baselineBranch c with
  | none => rw [assembleAgent, hb] at h; exact absurd h (by simp)
  | some bb =>
    rw [assembleAgent, hb] at h
    simp only [Option.some.injEq] at h
    have : a.reward_estimation.predict_action_values =
        bb.predict_action_values := by rw [← h]
    rw [this]
    unfold baselineBranch at hb
    split_ifs at hb <;> (injection hb with hb; subst hb; rfl)

/-- Witness for C10 at `exCfg`: `exAgent` never predicts action values. -/
theorem predict_action_values_invariant_witness :
    exAgent.reward_estimation.predict_action_values = false :=
  predict_action_values_invariant exCfg exAgent (by with_unfolding_all rfl)

end Tune

namespace Tune

open AgentUtil (pyInt pyRound)

/-- Helper: mapping the loss projection over an optional result whose
builder's loss field satisfies the mean formula. -/
theorem map_loss_formula {E : Type} (o : Option (List ℚ))
    (mk : List ℚ → ComputeResult E)
    (hmk : ∀ x, (mk x).loss =
      -listMean (mk x).final_reward - listMean (mk x).max_reward) :
    (o.map mk).map ComputeResult.loss =
      (o.map mk).map
        fun r => -listMean r.final_reward - listMean r.max_reward := by
  cases o with
  | none => rfl
  | some x => simp [hmk x]

/-- Helper: a successful `Option`-monad `mapM` preserves the length. -/
theorem mapM_option_length {α β : Type} (f : α → Option β) (l : List α) :
    ∀ l2, l.mapM f = some l2 → l2.length = l.length := by
  induction l with
  | nil =>
    intro l2 h
    simp only [List.mapM_nil, pure, Option.some.injEq] at h
    simp [← h]
  | cons a t ih =>
    intro l2 h
    rw [List.mapM_cons] at h
    cases hfa : f a with
    | none => rw [hfa] at h; simp at h
    | some b =>
      rw [hfa] at h
      cases hmt : t.mapM f with
      | none => rw [hmt] at h; simp at h
      | some bs =>
        rw [hmt] at h
        have hb : b :: bs = l2 := by simpa using h
        rw [← hb]
        simp [ih bs hmt]

/-- C3: the loss returned by `compute` is exactly
`-mean(final_reward) - mean(max_reward)` over the collected per-repetition
final rewards and max windowed rewards (whenever `compute` returns at all,
for every sample, budget, environment and reward oracle). -/
theorem loss_formula (E : Type) (config : TuneConfig) (budget : ℚ) (env : E)
    (mts : Option ℤ) (er : ℕ → List ℚ) :
    (compute E config budget env mts er).map ComputeResult.loss =
      (compute E config budget env mts er).map
        fun r => -listMean r.final_reward - listMean r.max_reward := by
  cases ha : assembleAgent config with
  | none => simp [compute, ha]
  | some agent =>
    simp only [compute, ha, Option.some_bind]
    exact map_loss_formula _ _ (fun x => rfl)

end Tune

namespace Tune

open AgentUtil (pyInt pyRound)

/-- C8: for every non-negative budget, a successful `compute` performs
exactly `round(budget)` repetitions: the runner trace and the three
collected lists all have `round(budget)` entries, and every repetition
constructs its runner on the assembled agent configuration and the worker's
environment, runs exactly 200 episodes with progress display disabled, and
is closed. -/
theorem repetition_loop_spec (E : Type) (config : TuneConfig) (budget : ℚ)
    (env : E) (mts : Option ℤ) (er : ℕ → List ℚ) (r : ComputeResult E)
    (hb : 0 ≤ budget) (h : compute E config budget env mts er = some r) :
    0 ≤ pyRound budget ∧
    r.calls.length = (pyRound budget).toNat ∧
    r.final_reward.length = (pyRound budget).toNat ∧
    r.max_reward.length = (pyRound budget).toNat ∧
    r.rewards.length = (pyRound budget).toNat ∧
    ∀ c ∈ r.calls, assembleAgent config = some c.agent ∧
      c.environment = env ∧ c.max_episode_timesteps = mts ∧
      c.num_episodes = 200 ∧ c.use_tqdm = false ∧ c.closed = true := by
  have hbr : 0 ≤ pyRound budget := by
    have h0 : (0:ℤ) ≤ ⌊budget⌋ := Int.floor_nonneg.2 hb
    simp only [pyRound]
    split_ifs <;> omega
  cases ha : assembleAgent config with
  | none => rw [compute, ha] at h; exact absurd h (by simp)
  | some agent =>
    simp only [compute, ha, Option.some_bind] at h
    cases hm : (List.range (pyRound budget).toNat).mapM
        (fun n => recordedMaxReward (er n)) with
    | none => rw [hm] at h; exact absurd h (by simp)
    | some maxs =>
      rw [hm] at h
      simp only [Option.map_some', Option.some.injEq] at h
      subst h
      refine ⟨hbr, by simp, by simp, ?_, by simp, ?_⟩
      · have := mapM_option_length _ _ maxs hm
        simpa using this
      · intro c hc
        simp only [List.mem_map] at hc
        obtain ⟨n, hn, rfl⟩ := hc
        exact ⟨rfl, rfl, rfl, rfl, rfl, rfl⟩

/-- Witness for C8 at `exCfg`, budget 1 and the stub oracle: one repetition
with a 200-episode, progress-free, closed runner on the assembled agent. -/
theorem repetition_loop_spec_witness :
    (0:ℚ) ≤ 1 ∧ compute Unit exCfg 1 () none exRewards = some exResult ∧
    (0 ≤ pyRound 1 ∧
     exResult.calls.length = (pyRound 1).toNat ∧
     exResult.final_reward.length = (pyRound 1).toNat ∧
     exResult.max_reward.length = (pyRound 1).toNat ∧
     exResult.rewards.length = (pyRound 1).toNat ∧
     ∀ c ∈ exResult.calls, assembleAgent exCfg = some c.agent ∧
       c.environment = () ∧ c.max_episode_timesteps = none ∧
       c.num_episodes = 200 ∧ c.use_tqdm = false ∧ c.closed = true) :=
  ⟨by norm_num, by with_unfolding_all rfl,
   repetition_loop_spec Unit exCfg 1 () none exRewards exResult
     (by norm_num) (by with_unfolding_all rfl)⟩

/-- C2 counterexample: on the 21-episode sequence `cexSeq`, the maximum over
ALL 20-episode sliding windows of the windowed mean is 1/20, attained by the
final window, but the recorded max is 0: `range(len(rewards) - 20)` skips
the final window start index. -/
theorem recordedMax_misses_final_window :
    recordedMaxReward cexSeq = some 0 ∧
    allWindowsMax cexSeq = some (1/20) ∧
    recordedMaxReward cexSeq ≠ allWindowsMax cexSeq := by
  have h1 : recordedMaxReward cexSeq = some 0 := by with_unfolding_all rfl
  have h2 : allWindowsMax cexSeq = some (1/20) := by with_unfolding_all rfl
  refine ⟨h1, h2, ?_⟩
  rw [h1, h2]
  intro hc
  have := Option.some.inj hc
  norm_num at this

/-- C2 (amended): for a reward sequence of at least 21 episodes, the
recorded max-windowed reward is the maximum of the windowed mean over the
20-episode sliding windows starting at indices 0 .. length-21 — all sliding
windows except the final one — and the recorded final reward is the mean
reward over the last 20 episodes. -/
theorem recorded_rewards_spec (xs : List ℚ) (h : 21 ≤ xs.length) :
    (∃ m, recordedMaxReward xs = some m ∧
      (∀ n < xs.length - 20, listMean ((xs.drop n).take 20) ≤ m) ∧
      (∃ n < xs.length - 20, listMean ((xs.drop n).take 20) = m)) ∧
    (xs.drop (xs.length - 20)).length = 20 ∧
    recordedFinalReward xs = listMean (xs.drop (xs.length - 20)) := by
  have hlen : (averageRewards xs).length = xs.length - 20 := by
    simp [averageRewards]
  have hne : averageRewards xs ≠ [] := by
    intro hnil
    rw [hnil] at hlen
    simp at hlen
    omega
  obtain ⟨m, hm⟩ : ∃ m, (averageRewards xs).max? = some m := by
    cases hmx : (averageRewards xs).max? with
    | none => exact absurd (List.max?_eq_none_iff.mp hmx) hne
    | some m => exact ⟨m, rfl⟩
  have hm0 := hm
  haveI : Std.Antisymm ((· : ℚ) ≤ ·) := ⟨fun h1 h2 => le_antisymm h1 h2⟩
  rw [List.max?_eq_some_iff (fun a => le_refl a) (fun a b => max_choice a b)
      (fun a b c => max_le_iff)] at hm
  obtain ⟨hmem, hub⟩ := hm
  refine ⟨⟨m, hm0, ?_, ?_⟩, ?_, rfl⟩
  · intro n hn
    exact hub _ (List.mem_map_of_mem _ (List.mem_range.2 hn))
  · simp only [averageRewards, List.mem_map, List.mem_range] at hmem
    obtain ⟨n, hn, hfn⟩ := hmem
    exact ⟨n, hn, hfn⟩
  · rw [List.length_drop]
    omega

/-- Witness for C2 (amended) on the 21-episode sequence `cexSeq`. -/
theorem recorded_rewards_spec_witness :
    21 ≤ cexSeq.length ∧
    ((∃ m, recordedMaxReward cexSeq = some m ∧
      (∀ n < cexSeq.length - 20, listMean ((cexSeq.drop n).take 20) ≤ m) ∧
      (∃ n < cexSeq.length - 20, listMean ((cexSeq.drop n).take 20) = m)) ∧
    (cexSeq.drop (cexSeq.length - 20)).length = 20 ∧
    recordedFinalReward cexSeq =
      listMean (cexSeq.drop (cexSeq.length - 20))) :=
  ⟨by decide, recorded_rewards_spec cexSeq (by decide)⟩

end Tune
